import Mathlib

/-!
# Verification of the video/thumbnail upload handlers

Shallow embedding of `src/api/videos.ts`: the video upload handler
(`handlerUploadVideo`), the ffprobe-based orientation probe
(`getVideoOrientation`), the pure dimension classifier
(`getVideoOrientationFromDimensions`), and the thumbnail upload handler
(`handlerUploadThumbnail`).

External collaborators (JWT validation, the database, the random generator,
the ffprobe child process, the S3 client) are modelled as an environment
record supplying their outcomes; the handlers' own control flow, string
construction, and effect ordering are translated statement by statement
from the source.  Effects (staging writes, staging deletes, S3 writes,
database updates) are recorded in an explicit outcome record so that
claims about cleanup, frame conditions and commit ordering can be stated.

JavaScript numbers appearing in the classifier are modelled as exact
rationals (`ℚ`), matching the spec's real-arithmetic reading of the
ratio comparisons.
-/

/-- Orientation category, from `type VideoOrientation = "landscape" | "portrait" | "other"`. -/
inductive VideoOrientation where
  | landscape
  | portrait
  | other
deriving DecidableEq, Repr

/-- The string a `VideoOrientation` renders as in a template literal. -/
def orientationString : VideoOrientation → String
  | .landscape => "landscape"
  | .portrait => "portrait"
  | .other => "other"

/-- `getVideoOrientationFromDimensions` from `src/api/videos.ts` (lines 121–134):
`ratio = width / height`; landscape when `|ratio - 16/9| <= 0.05`, else portrait
when `|ratio - 9/16| <= 0.05`, else other. -/
def getVideoOrientationFromDimensions (width height : ℚ) : VideoOrientation :=
  let ratio := width / height
  let tolerance : ℚ := 0.05
  if |ratio - 16 / 9| ≤ tolerance then
    .landscape
  else if |ratio - 9 / 16| ≤ tolerance then
    .portrait
  else
    .other

/-- Round-to-nearest with ties-to-even of a scaled significand: the
argument is a positive rational scaled so that its integer part has
53 bits; the result is the rounded integer, as a rational. -/
def mantissaRound (m : ℚ) : ℚ :=
  if m - ⌊m⌋ < 1 / 2 then (⌊m⌋ : ℚ)
  else if 1 / 2 < m - ⌊m⌋ then ((⌊m⌋ + 1 : ℤ) : ℚ)
  else if ⌊m⌋ % 2 = 0 then (⌊m⌋ : ℚ) else ((⌊m⌋ + 1 : ℤ) : ℚ)

/-- Round a positive rational to the nearest IEEE binary64 value: scale by
the power of two that puts the significand `s * 2 ^ (52 - log2 s)` into
`[2 ^ 52, 2 ^ 53)`, round it to an integer ties-to-even, and scale back. -/
def roundPos (s : ℚ) : ℚ :=
  mantissaRound (s * (2 : ℚ) ^ ((52 : ℤ) - Int.log 2 s)) * (2 : ℚ) ^ (Int.log 2 s - 52)

/-- Rounding of a rational to the nearest IEEE binary64 double
(round-to-nearest, ties-to-even), in the normal range; overflow and
subnormals, far outside the classifier's magnitudes, are not modelled.
JavaScript number arithmetic returns the correctly rounded result of each
exact operation, so every `number` operation is modelled as the exact
rational operation followed by this rounding. -/
def roundToBinary64 (q : ℚ) : ℚ :=
  if q = 0 then 0
  else if 0 < q then roundPos q
  else -roundPos (-q)

/-- JavaScript double division: the exact quotient, rounded. -/
def fdiv (a b : ℚ) : ℚ := roundToBinary64 (a / b)

/-- JavaScript double subtraction: the exact difference, rounded. -/
def fsub (a b : ℚ) : ℚ := roundToBinary64 (a - b)

/-- `getVideoOrientationFromDimensions` from `src/api/videos.ts` (lines
121–134) again, now at IEEE binary64 fidelity: `width` and `height` are the
parsed double values, `ratio = width / height` is a rounded division, the
constants `16 / 9`, `9 / 16` and `0.05` are the doubles nearest those
rationals, each subtraction rounds, and `Math.abs` and `<=` are exact on
doubles.  The exact-rational `getVideoOrientationFromDimensions` above is
the idealized reading; the two models diverge at band-boundary ratios such
as 329/180. -/
def getVideoOrientationFromDimensionsFP (width height : ℚ) : VideoOrientation :=
  let ratio := fdiv width height
  let tolerance := roundToBinary64 (0.05 : ℚ)
  if |fsub ratio (fdiv 16 9)| ≤ tolerance then
    .landscape
  else if |fsub ratio (fdiv 9 16)| ≤ tolerance then
    .portrait
  else
    .other

/-- A JavaScript value that was read out of the parsed probe output at
`width`/`height`: either a number, or a non-number whose `typeof` string
is recorded (the code only inspects `typeof`). -/
inductive JNum where
  | num (q : ℚ)
  | notNum (tyName : String)
deriving DecidableEq, Repr

/-- One entry of `probeData.streams`. -/
structure ProbeStream where
  width : JNum
  height : JNum
deriving DecidableEq, Repr

/-- The value `JSON.parse(stdoutText)` produced: its `streams` array and its
`JSON.stringify` rendering (used only in an error message). -/
structure ProbeData where
  streams : List ProbeStream
  stringified : String
deriving DecidableEq, Repr

/-- Decidable equality for `Except`, needed to evaluate concrete handler
outcomes by `decide`. -/
def exceptDecEq {ε α : Type} [DecidableEq ε] [DecidableEq α] :
    DecidableEq (Except ε α) := fun a b =>
  match a, b with
  | .error x, .error y =>
    if h : x = y then .isTrue (congrArg Except.error h)
    else .isFalse (fun c => h (Except.error.inj c))
  | .ok x, .ok y =>
    if h : x = y then .isTrue (congrArg Except.ok h)
    else .isFalse (fun c => h (Except.ok.inj c))
  | .error _, .ok _ => .isFalse Except.noConfusion
  | .ok _, .error _ => .isFalse Except.noConfusion

instance {ε α : Type} [DecidableEq ε] [DecidableEq α] :
    DecidableEq (Except ε α) := exceptDecEq

/-- Outcome of the spawned ffprobe child process, with both output streams
fully captured: the exit code, the result of parsing the captured stdout
(`.error msg` when `JSON.parse` throws), and the captured stderr text. -/
structure ProbeProc where
  exitCode : Int
  stdoutParse : Except String ProbeData
  stderrText : String
deriving DecidableEq, Repr

/-- `typeof` of a `JNum`, as interpolated into the error messages. -/
def jnumTypeof : JNum → String
  | .num _ => "number"
  | .notNum tyName => tyName

/-- `getVideoOrientation` from `src/api/videos.ts` (lines 85–119), as a function
of the probe process outcome.  Non-zero exit throws `Error(stderrText)`;
otherwise the parsed stdout's first stream must exist and have numeric
`width`/`height`, which are classified. -/
def getVideoOrientation (proc : ProbeProc) : Except String VideoOrientation :=
  if proc.exitCode ≠ 0 then
    .error proc.stderrText
  else
    match proc.stdoutParse with
    | .error e => .error e
    | .ok probeData =>
      match probeData.streams.head? with
      | none => .error ("Stream is not defined: " ++ probeData.stringified)
      | some firstStream =>
        match firstStream.width with
        | .notNum ty => .error ("Width is not a number but: " ++ ty)
        | .num width =>
          match firstStream.height with
          | .notNum ty => .error ("Height is not a number but: " ++ ty)
          | .num height => .ok (getVideoOrientationFromDimensions width height)

/-- A video record of the metadata store (`getVideo`/`updateVideo` rows). -/
structure VideoRecord where
  id : String
  userID : String
  title : String
  description : String
  thumbnailURL : Option String
  videoURL : Option String
deriving DecidableEq, Repr

/-- The error classes thrown by the handlers: `BadRequestError`,
`NotFoundError`, `UserForbiddenError` from `./errors`, and the plain
`Error` rethrown from probing / storage (surfaced as a server error). -/
inductive ApiErr where
  | badRequest (msg : String)
  | notFound (msg : String)
  | userForbidden (msg : String)
  | serverError (msg : String)
deriving DecidableEq, Repr

/-- The class (constructor) of an `ApiErr`, forgetting the message. -/
inductive ErrClass where
  | badRequest
  | notFound
  | userForbidden
  | serverError
deriving DecidableEq, Repr

/-- Classify an `ApiErr` by its constructor. -/
def ApiErr.cls : ApiErr → ErrClass
  | .badRequest _ => .badRequest
  | .notFound _ => .notFound
  | .userForbidden _ => .userForbidden
  | .serverError _ => .serverError

/-- The fields of `cfg : ApiConfig` the two handlers read. -/
structure ApiConfig where
  s3Bucket : String
  s3Region : String
  port : Nat
  assetsRoot : String
deriving Repr

/-- The file value obtained from `formData.get(...)` when it is a `File`:
the handlers read only its `size` and its declared MIME `type`. -/
structure UploadFile where
  size : Nat
  mimeType : String
deriving DecidableEq, Repr

/-- A video upload request: the `:videoId` path parameter (absent when
malformed) and the `video` form field (absent when missing or not a file). -/
structure VideoUploadRequest where
  videoId : Option String
  video : Option UploadFile
deriving Repr

/-- Environment of one video upload request: the outcomes of the external
collaborators the handler calls.  `userID` is the identity `validateJWT`
returns, `db` is `getVideo`, `randomHex` is `randomBytes(32).toString("hex")`,
`probe` is the ffprobe child-process outcome on the staged file, and `s3Ok`
says whether the S3 object write succeeds. -/
structure UploadEnv where
  userID : String
  db : String → Option VideoRecord
  randomHex : String
  probe : ProbeProc
  s3Ok : Bool

/-- The observable outcome of one video upload request: the handler's
result together with its recorded effects, in particular every staging
write, every staging delete, every S3 object write `(key, sourcePath)`,
and every record passed to `updateVideo`. -/
structure UploadOutcome where
  result : Except ApiErr VideoRecord
  stagedWrites : List String
  stagedDeletes : List String
  s3Writes : List (String × String)
  dbUpdates : List VideoRecord
deriving DecidableEq, Repr

/-- `Bool`-valued success test on a handler result. -/
def resultIsOk (r : Except ApiErr VideoRecord) : Bool :=
  match r with
  | .ok _ => true
  | .error _ => false

/-- Split a character list at every occurrence of the separator, keeping
empty groups: the character-level behaviour of `String.prototype.split`
with a one-character separator. -/
def splitChars (sep : Char) : List Char → List (List Char)
  | [] => [[]]
  | c :: rest =>
    if c = sep then [] :: splitChars sep rest
    else
      match splitChars sep rest with
      | [] => [[c]]
      | group :: groups => (c :: group) :: groups

/-- `mimeType.split("/")` of the handler, for the one-character separator
`'/'` used there. -/
def jsSplit (s : String) (sep : Char) : List String :=
  (splitChars sep s.data).map List.asString

/-- `MAX_UPLOAD_SIZE = 1 << 30` of the video handler. -/
def MAX_UPLOAD_SIZE : Nat := 1 <<< 30

/-- The template literal
`https://${cfg.s3Bucket}.s3.${cfg.s3Region}.amazonaws.com/${videoOrientation}/${filename}`
the handler stores in `videoURL`, with `key = {videoOrientation}/{filename}`. -/
def publicVideoURL (cfg : ApiConfig) (key : String) : String :=
  "https://" ++ cfg.s3Bucket ++ ".s3." ++ cfg.s3Region ++ ".amazonaws.com/" ++ key

/-- `handlerUploadVideo` from `src/api/videos.ts` (lines 11–73), translated
gate by gate: missing id, non-file field, size ceiling, record existence,
ownership, MIME type; then staging write to `/tmp/{randomHex}.{ext}`,
probing (a thrown probe error aborts with the staged file still present),
the S3 write under `{orientation}/{filename}` (a storage failure likewise
aborts without cleanup), the record update spreading the old record with a
new `videoURL`, the staged-file delete, and the 200 response. -/
def handlerUploadVideo (cfg : ApiConfig) (env : UploadEnv)
    (req : VideoUploadRequest) : UploadOutcome :=
  match req.videoId with
  | none => ⟨.error (.badRequest "Invalid video ID"), [], [], [], []⟩
  | some videoId =>
    match req.video with
    | none => ⟨.error (.badRequest "Video is not a file"), [], [], [], []⟩
    | some video =>
      if video.size > MAX_UPLOAD_SIZE then
        ⟨.error (.badRequest "Video is too large"), [], [], [], []⟩
      else
        match env.db videoId with
        | none => ⟨.error (.notFound "Video does not exist"), [], [], [], []⟩
        | some videoMetaData =>
          if videoMetaData.userID ≠ env.userID then
            ⟨.error (.userForbidden "Video does not belong to this user"),
              [], [], [], []⟩
          else if video.mimeType ≠ "video/mp4" then
            ⟨.error (.badRequest "Incorrect mime type, only accepting video/mp4"),
              [], [], [], []⟩
          else
            let fileExtension := (jsSplit video.mimeType '/').getD 1 "undefined"
            let filename := env.randomHex ++ "." ++ fileExtension
            let filepath := "/tmp/" ++ filename
            match getVideoOrientation env.probe with
            | .error e =>
              ⟨.error (.serverError e), [filepath], [], [], []⟩
            | .ok videoOrientation =>
              let key := orientationString videoOrientation ++ "/" ++ filename
              if env.s3Ok then
                let newVideo : VideoRecord :=
                  { videoMetaData with
                    videoURL := some (publicVideoURL cfg key) }
                ⟨.ok newVideo, [filepath], [filepath], [(key, filepath)],
                  [newVideo]⟩
              else
                ⟨.error (.serverError "S3 write failed"), [filepath], [], [], []⟩

/-- A thumbnail upload request: the `:videoId` path parameter and the
`thumbnail` form field (absent when missing or not a file). -/
structure ThumbUploadRequest where
  videoId : Option String
  thumbnail : Option UploadFile
deriving Repr

/-- Environment of one thumbnail upload request: the identity `validateJWT`
returns and the metadata store lookup `getVideo`. -/
structure ThumbEnv where
  userID : String
  db : String → Option VideoRecord

/-- The observable outcome of one thumbnail upload request: the result,
every asset file written under the assets root, and every record passed
to `updateVideo`. -/
structure ThumbOutcome where
  result : Except ApiErr VideoRecord
  assetWrites : List String
  dbUpdates : List VideoRecord
deriving DecidableEq, Repr

/-- `allowedMimeTypes = ["image/jpeg", "image/png"]` of the thumbnail handler. -/
def allowedMimeTypes : List String := ["image/jpeg", "image/png"]

/-- `MAX_UPLOAD_SIZE = 10 << 20` of the thumbnail handler. -/
def THUMB_MAX_UPLOAD_SIZE : Nat := 10 <<< 20

/-- `handlerUploadThumbnail` from `src/api/videos.ts` (lines 268–319 variant;
the ownership gate, lines 297–301, is identical in all three variants):
missing id, non-file field, MIME allowlist, size ceiling; then the guard
`videoMetaData?.userID !== userID` throws `UserForbiddenError` — also when
`getVideo` found no record at all, since then the optional chain yields
`undefined`, which differs from the (string) `userID`.  On the success path
the thumbnail is written to `{assetsRoot}/{id}.{mediaType}` and the record's
`thumbnailURL` is updated.  The `.error (.serverError "TypeError")` branch is
dead code: it corresponds to reading `videoMetaData.id` with `videoMetaData`
undefined, which the guard makes unreachable. -/
def handlerUploadThumbnail (cfg : ApiConfig) (env : ThumbEnv)
    (req : ThumbUploadRequest) : ThumbOutcome :=
  match req.videoId with
  | none => ⟨.error (.badRequest "Invalid video ID"), [], []⟩
  | some videoId =>
    match req.thumbnail with
    | none => ⟨.error (.badRequest "Thumbnail is not a file"), [], []⟩
    | some thumbnail =>
      if ¬ allowedMimeTypes.contains thumbnail.mimeType then
        ⟨.error (.badRequest
          "Incorrect mime type, only accepting image/jpeg and image/png"),
          [], []⟩
      else if thumbnail.size > THUMB_MAX_UPLOAD_SIZE then
        ⟨.error (.badRequest "Thumbnail is too large"), [], []⟩
      else
        let videoMetaData := env.db videoId
        if videoMetaData.map VideoRecord.userID ≠ some env.userID then
          ⟨.error (.userForbidden "Video does not belong to this user"), [], []⟩
        else
          match videoMetaData with
          | none => ⟨.error (.serverError "TypeError"), [], []⟩
          | some record =>
            let filename := record.id ++ "." ++ thumbnail.mimeType
            let filepath := cfg.assetsRoot ++ "/" ++ filename
            let thumbnailURL :=
              "http://localhost:" ++ toString cfg.port ++ "/assets/" ++ filename
            let newVideo : VideoRecord :=
              { record with thumbnailURL := some thumbnailURL }
            ⟨.ok newVideo, [filepath], [newVideo]⟩

/-! ## Concrete fixtures

A configuration, a stored record, and request/environment values used by
the counterexamples and witnesses below. -/

/-- A concrete configuration. -/
def cfgT : ApiConfig :=
  { s3Bucket := "tubely-bkt", s3Region := "eu-west-1"
    port := 8091, assetsRoot := "assets" }

/-- A concrete stored video record owned by user `"alice"`. -/
def recT : VideoRecord :=
  { id := "vid-1", userID := "alice", title := "t", description := "d"
    thumbnailURL := none, videoURL := none }

/-- A probe outcome: exit 0 with a single 1920×1080 stream. -/
def probeOkT : ProbeProc :=
  { exitCode := 0
    stdoutParse := .ok
      { streams := [{ width := .num 1920, height := .num 1080 }]
        stringified := "\x7bstreams\x7d" }
    stderrText := "" }

/-- A probe outcome: exit 1 with diagnostic text on stderr. -/
def probeFailT : ProbeProc :=
  { exitCode := 1
    stdoutParse := .error "Unexpected end of JSON input"
    stderrText := "ffprobe: No such file or directory" }

/-- A video upload environment in which every external step succeeds. -/
def envOkT : UploadEnv :=
  { userID := "alice"
    db := fun videoId => if videoId = "vid-1" then some recT else none
    randomHex := "aabb"
    probe := probeOkT
    s3Ok := true }

/-- Same environment, but the probe process fails. -/
def envProbeFailT : UploadEnv :=
  { envOkT with probe := probeFailT }

/-- Same environment, but the S3 write fails. -/
def envS3FailT : UploadEnv :=
  { envOkT with s3Ok := false }

/-- A well-formed upload request for `vid-1` with a small MP4 file. -/
def reqT : VideoUploadRequest :=
  { videoId := some "vid-1", video := some { size := 1000, mimeType := "video/mp4" } }

/-- An upload request whose file exceeds the 1 GiB ceiling by one byte. -/
def reqTooBigT : VideoUploadRequest :=
  { videoId := some "vid-1"
    video := some { size := 1 <<< 30 + 1, mimeType := "video/mp4" } }

/-- An upload request whose `video` form field is not a file. -/
def reqNoFileT : VideoUploadRequest :=
  { videoId := some "vid-1", video := none }

/-- The record the success path of `handlerUploadVideo cfgT envOkT reqT`
persists and returns. -/
def vT : VideoRecord :=
  { recT with
    videoURL :=
      some "https://tubely-bkt.s3.eu-west-1.amazonaws.com/landscape/aabb.mp4" }

/-- A thumbnail upload environment whose store has no records. -/
def thumbEnvEmptyT : ThumbEnv :=
  { userID := "alice", db := fun _ => none }

/-- A well-formed thumbnail upload request for an id absent from the store. -/
def thumbReqT : ThumbUploadRequest :=
  { videoId := some "vid-404"
    thumbnail := some { size := 10, mimeType := "image/png" } }

/-- Splitting the accepted MIME type at the slash. -/
theorem jsSplit_video_mp4 : jsSplit "video/mp4" '/' = ["video", "mp4"] := by
  decide

set_option maxRecDepth 8000

set_option maxHeartbeats 1000000

/-! ## Theorems -/

/-- Classification of the concrete 1920×1080 probe geometry. -/
theorem classify_1920_1080 : getVideoOrientationFromDimensions 1920 1080 = .landscape := by
  unfold getVideoOrientationFromDimensions
  norm_num

/-- The concrete successful probe yields the landscape orientation. -/
theorem probeOkT_orientation : getVideoOrientation probeOkT = .ok .landscape := by
  simp [getVideoOrientation, probeOkT, classify_1920_1080]

/-- Full evaluation of the concrete successful upload run. -/
theorem uploadOkT_eval :
    handlerUploadVideo cfgT envOkT reqT =
      { result := .ok vT
        stagedWrites := ["/tmp/aabb.mp4"]
        stagedDeletes := ["/tmp/aabb.mp4"]
        s3Writes := [("landscape/aabb.mp4", "/tmp/aabb.mp4")]
        dbUpdates := [vT] } := by
  simp [handlerUploadVideo, cfgT, envOkT, reqT, recT, vT, probeOkT_orientation,
    MAX_UPLOAD_SIZE, orientationString, jsSplit_video_mp4, publicVideoURL]

/-- Full evaluation of the concrete probe-failure upload run. -/
theorem uploadProbeFailT_eval :
    handlerUploadVideo cfgT envProbeFailT reqT =
      { result := .error (.serverError "ffprobe: No such file or directory")
        stagedWrites := ["/tmp/aabb.mp4"]
        stagedDeletes := []
        s3Writes := []
        dbUpdates := [] } := by
  decide

/-- C1, counterexample: in a run in which every gate passes, staging occurs
and then the probe process fails, the request completes (with a server
error) while the staged file has been written and never deleted — the
claimed every-exit-path cleanup does not happen. -/
theorem upload_probe_failure_leaves_staged_file :
    (handlerUploadVideo cfgT envProbeFailT reqT).stagedWrites = ["/tmp/aabb.mp4"] ∧
    (handlerUploadVideo cfgT envProbeFailT reqT).stagedDeletes = [] ∧
    (handlerUploadVideo cfgT envProbeFailT reqT).result =
      .error (.serverError "ffprobe: No such file or directory") := by
  rw [uploadProbeFailT_eval]
  exact ⟨rfl, rfl, rfl⟩

/-- C1, amended: cleanup of the staged file happens exactly once but only on
the success path; on every failing exit path (including probe and storage
failures after staging) no staged file is deleted. -/
theorem upload_cleanup_only_on_success (cfg : ApiConfig) (env : UploadEnv)
    (req : VideoUploadRequest) :
    (∀ r, (handlerUploadVideo cfg env req).result = .ok r →
      (handlerUploadVideo cfg env req).stagedDeletes
        = (handlerUploadVideo cfg env req).stagedWrites) ∧
    (∀ e, (handlerUploadVideo cfg env req).result = .error e →
      (handlerUploadVideo cfg env req).stagedDeletes = []) := by
  unfold handlerUploadVideo
  repeat' split
  all_goals simp

/-- C1, witness: the amended theorem applied to the concrete success run. -/
theorem upload_cleanup_only_on_success_witness :
    (handlerUploadVideo cfgT envOkT reqT).stagedDeletes
      = (handlerUploadVideo cfgT envOkT reqT).stagedWrites :=
  (upload_cleanup_only_on_success cfgT envOkT reqT).1 vT
    (by rw [uploadOkT_eval])

/-- C2, counterexample: on a concrete fully successful run the storage write
takes the original staged input file itself as its source — no remuxed
output path distinct from the input is ever produced or uploaded. -/
theorem upload_no_remux_counterexample :
    (handlerUploadVideo cfgT envOkT reqT).stagedWrites = ["/tmp/aabb.mp4"] ∧
    (handlerUploadVideo cfgT envOkT reqT).s3Writes =
      [("landscape/aabb.mp4", "/tmp/aabb.mp4")] ∧
    resultIsOk (handlerUploadVideo cfgT envOkT reqT).result = true := by
  rw [uploadOkT_eval]
  exact ⟨rfl, rfl, rfl⟩

/-- C2, amended: there is no remux step — on every successful upload exactly
one file is staged, and the storage write's source path is that original
staged file. -/
theorem upload_uploads_original_staged_file (cfg : ApiConfig) (env : UploadEnv)
    (req : VideoUploadRequest) (r : VideoRecord)
    (h : (handlerUploadVideo cfg env req).result = .ok r) :
    ∃ p, (handlerUploadVideo cfg env req).stagedWrites = [p] ∧
      ∃ k, (handlerUploadVideo cfg env req).s3Writes = [(k, p)] := by
  revert h
  unfold handlerUploadVideo
  repeat' split
  all_goals intro h
  all_goals simp_all

/-- C2, witness: the amended theorem applied to the concrete success run. -/
theorem upload_uploads_original_staged_file_witness :
    ∃ p, (handlerUploadVideo cfgT envOkT reqT).stagedWrites = [p] ∧
      ∃ k, (handlerUploadVideo cfgT envOkT reqT).s3Writes = [(k, p)] :=
  upload_uploads_original_staged_file cfgT envOkT reqT vT
    (by rw [uploadOkT_eval])

/-- C3, counterexample: on a concrete successful upload the record passed to
`updateVideo` and the record in the 200 response are the same record, so the
persisted `videoURL` and the response `videoURL` are the same string — and
that string is the full public URL, not a bare storage key. -/
theorem upload_same_url_counterexample :
    (handlerUploadVideo cfgT envOkT reqT).result = .ok vT ∧
    (handlerUploadVideo cfgT envOkT reqT).dbUpdates = [vT] ∧
    vT.videoURL =
      some "https://tubely-bkt.s3.eu-west-1.amazonaws.com/landscape/aabb.mp4" := by
  rw [uploadOkT_eval]
  exact ⟨rfl, rfl, rfl⟩

/-- C3, amended: on every successful upload the persisted record is the very
record returned in the response, and its `videoURL` is the full public URL
`https://{bucket}.s3.{region}.amazonaws.com/{orientation}/{randomHex}.mp4`;
no separate durable-key / signed display forms exist. -/
theorem upload_persisted_equals_response_url (cfg : ApiConfig) (env : UploadEnv)
    (req : VideoUploadRequest) (r : VideoRecord)
    (h : (handlerUploadVideo cfg env req).result = .ok r) :
    (handlerUploadVideo cfg env req).dbUpdates = [r] ∧
    ∃ o, getVideoOrientation env.probe = .ok o ∧
      r.videoURL = some (publicVideoURL cfg
        (orientationString o ++ "/" ++ (env.randomHex ++ "." ++ "mp4"))) := by
  revert h
  unfold handlerUploadVideo
  repeat' split
  all_goals intro h
  all_goals simp_all [jsSplit_video_mp4]
  all_goals (subst h; simp)

/-- C3, witness: the amended theorem applied to the concrete success run. -/
theorem upload_persisted_equals_response_url_witness :
    (handlerUploadVideo cfgT envOkT reqT).dbUpdates = [vT] ∧
    ∃ o, getVideoOrientation envOkT.probe = .ok o ∧
      vT.videoURL = some (publicVideoURL cfgT
        (orientationString o ++ "/" ++ (envOkT.randomHex ++ "." ++ "mp4"))) :=
  upload_persisted_equals_response_url cfgT envOkT reqT vT (by rw [uploadOkT_eval])

/-- C4: the record is mutated only when the storage write has committed — a
nonempty `updateVideo` trace implies the S3 write succeeded and happened;
on staging, probe, or storage failure the metadata record is untouched. -/
theorem upload_db_update_requires_s3_commit (cfg : ApiConfig) (env : UploadEnv)
    (req : VideoUploadRequest)
    (h : (handlerUploadVideo cfg env req).dbUpdates ≠ []) :
    env.s3Ok = true ∧ (handlerUploadVideo cfg env req).s3Writes ≠ [] := by
  revert h
  unfold handlerUploadVideo
  repeat' split
  all_goals intro h
  all_goals simp_all

/-- C4, witness: the theorem applied to the concrete success run. -/
theorem upload_db_update_requires_s3_commit_witness :
    envOkT.s3Ok = true ∧ (handlerUploadVideo cfgT envOkT reqT).s3Writes ≠ [] :=
  upload_db_update_requires_s3_commit cfgT envOkT reqT
    (by rw [uploadOkT_eval]; simp)

/-- C5, counterexample: the over-sized upload fails with `BadRequestError`
("Video is too large"), which is the same error class the handler uses for
the generic invalid-request failure ("Video is not a file") — there is no
distinct `PayloadTooLarge` error class in the code. -/
theorem upload_too_large_class_counterexample :
    (handlerUploadVideo cfgT envOkT reqTooBigT).result =
      .error (.badRequest "Video is too large") ∧
    (handlerUploadVideo cfgT envOkT reqNoFileT).result =
      .error (.badRequest "Video is not a file") ∧
    (ApiErr.badRequest "Video is too large").cls =
      (ApiErr.badRequest "Video is not a file").cls := by
  refine ⟨by decide, by decide, rfl⟩

/-- C5, amended: an upload whose file exceeds the 1 GiB ceiling fails with
`BadRequestError` ("Video is too large") — the same 400 class as other
invalid-request failures, not a distinct `PayloadTooLarge` class — and the
failure occurs before any staging, storage write, or record update. -/
theorem upload_too_large_bad_request_before_staging (cfg : ApiConfig)
    (env : UploadEnv) (req : VideoUploadRequest) (vid : String) (f : UploadFile)
    (hvid : req.videoId = some vid) (hf : req.video = some f)
    (hsize : f.size > MAX_UPLOAD_SIZE) :
    (handlerUploadVideo cfg env req).result =
      .error (.badRequest "Video is too large") ∧
    (handlerUploadVideo cfg env req).stagedWrites = [] ∧
    (handlerUploadVideo cfg env req).s3Writes = [] ∧
    (handlerUploadVideo cfg env req).dbUpdates = [] := by
  revert hvid hf hsize
  unfold handlerUploadVideo
  repeat' split
  all_goals intro hvid hf hsize
  all_goals simp_all
  all_goals omega

/-- C5, witness: the amended theorem applied to the concrete over-sized
request. -/
theorem upload_too_large_bad_request_before_staging_witness :
    (handlerUploadVideo cfgT envOkT reqTooBigT).result =
      .error (.badRequest "Video is too large") ∧
    (handlerUploadVideo cfgT envOkT reqTooBigT).stagedWrites = [] ∧
    (handlerUploadVideo cfgT envOkT reqTooBigT).s3Writes = [] ∧
    (handlerUploadVideo cfgT envOkT reqTooBigT).dbUpdates = [] :=
  upload_too_large_bad_request_before_staging cfgT envOkT reqTooBigT
    "vid-1" { size := 1 <<< 30 + 1, mimeType := "video/mp4" }
    rfl rfl (by decide)

/-- Zeta-reduced form of the classifier, for rewriting. -/
theorem classify_def (w h : ℚ) :
    getVideoOrientationFromDimensions w h =
      if |w / h - 16 / 9| ≤ 0.05 then .landscape
      else if |w / h - 9 / 16| ≤ 0.05 then .portrait
      else .other := rfl

/-- The landscape and portrait tolerance bands are disjoint, so the
else-if ordering of the classifier cannot shadow the portrait case. -/
theorem landscape_portrait_bands_disjoint (r : ℚ) (h1 : |r - 9 / 16| ≤ 0.05) :
    ¬ |r - 16 / 9| ≤ 0.05 := by
  rw [abs_le] at h1 ⊢
  intro h2
  norm_num at h1 h2
  linarith

/-- Evaluate `Int.log 2` from bracketing powers of two. -/
theorem int_log2_eval {s : ℚ} {e : ℤ} (h0 : 0 < s)
    (h1 : (2 : ℚ) ^ e ≤ s) (h2 : s < (2 : ℚ) ^ (e + 1)) : Int.log 2 s = e := by
  have hc : ((2 : ℕ) : ℚ) = (2 : ℚ) := by norm_num
  have hle : e ≤ Int.log 2 s := by
    rw [← Int.zpow_le_iff_le_log one_lt_two h0, hc]
    exact h1
  have hlt : Int.log 2 s < e + 1 := by
    rw [← Int.lt_zpow_iff_log_lt one_lt_two h0, hc]
    exact h2
  omega

/-- An integer significand rounds to itself. -/
theorem mantissaRound_intCast (n : ℤ) : mantissaRound (n : ℚ) = (n : ℚ) := by
  unfold mantissaRound
  rw [Int.floor_intCast]
  norm_num

/-- Significand rounding when the fractional part is below one half. -/
theorem mantissaRound_eq_down (m : ℚ) (n : ℤ) (hfl : ⌊m⌋ = n)
    (hfr : m - n < 1 / 2) : mantissaRound m = (n : ℚ) := by
  unfold mantissaRound
  rw [hfl, if_pos hfr]

/-- Significand rounding when the fractional part is above one half. -/
theorem mantissaRound_eq_up (m : ℚ) (n : ℤ) (hfl : ⌊m⌋ = n)
    (hfr : 1 / 2 < m - n) : mantissaRound m = ((n + 1 : ℤ) : ℚ) := by
  unfold mantissaRound
  rw [hfl, if_neg (by linarith), if_pos hfr]

/-- Zero rounds to zero. -/
theorem roundToBinary64_zero : roundToBinary64 0 = 0 := by
  unfold roundToBinary64
  rw [if_pos rfl]

/-- Rounding a positive rational reduces to `roundPos`. -/
theorem roundToBinary64_of_pos (q : ℚ) (h : 0 < q) :
    roundToBinary64 q = roundPos q := by
  unfold roundToBinary64
  rw [if_neg (ne_of_gt h), if_pos h]

/-- Rounding a negative rational reduces to `roundPos` of its negation. -/
theorem roundToBinary64_of_neg (q : ℚ) (h : q < 0) :
    roundToBinary64 q = -roundPos (-q) := by
  unfold roundToBinary64
  rw [if_neg (ne_of_lt h), if_neg (not_lt.mpr (le_of_lt h))]

/-- A positive rational whose scaled significand is an integer is an exact
binary64 value and rounds to itself. -/
theorem roundPos_eq_self (s : ℚ) (e n : ℤ)
    (h1 : (2 : ℚ) ^ e ≤ s) (h2 : s < (2 : ℚ) ^ (e + 1))
    (hs : s * (2 : ℚ) ^ ((52 : ℤ) - e) = (n : ℚ)) :
    roundPos s = s := by
  have h0 : 0 < s := lt_of_lt_of_le (zpow_pos (by norm_num) e) h1
  unfold roundPos
  rw [int_log2_eval h0 h1 h2, hs, mantissaRound_intCast, ← hs, mul_assoc,
    ← zpow_add₀ (by norm_num : (2 : ℚ) ≠ 0)]
  norm_num

/-- A rational that is an exact binary64 value rounds to itself. -/
theorem roundToBinary64_eq_self (q : ℚ) (e n : ℤ)
    (h1 : (2 : ℚ) ^ e ≤ |q|) (h2 : |q| < (2 : ℚ) ^ (e + 1))
    (hs : |q| * (2 : ℚ) ^ ((52 : ℤ) - e) = (n : ℚ)) :
    roundToBinary64 q = q := by
  rcases lt_trichotomy q 0 with hq | hq | hq
  · rw [abs_of_neg hq] at h1 h2 hs
    rw [roundToBinary64_of_neg q hq, roundPos_eq_self (-q) e n h1 h2 hs, neg_neg]
  · rw [hq, roundToBinary64_zero]
  · rw [abs_of_pos hq] at h1 h2 hs
    rw [roundToBinary64_of_pos q hq, roundPos_eq_self q e n h1 h2 hs]

/-- Evaluation of the rounding of a positive rational when the significand
rounds down. -/
theorem roundToBinary64_pos_down (q : ℚ) (e n : ℤ)
    (hq : 0 < q) (h1 : (2 : ℚ) ^ e ≤ q) (h2 : q < (2 : ℚ) ^ (e + 1))
    (hfl : ⌊q * (2 : ℚ) ^ ((52 : ℤ) - e)⌋ = n)
    (hfr : q * (2 : ℚ) ^ ((52 : ℤ) - e) - n < 1 / 2) :
    roundToBinary64 q = (n : ℚ) * (2 : ℚ) ^ (e - 52) := by
  rw [roundToBinary64_of_pos q hq]
  unfold roundPos
  rw [int_log2_eval hq h1 h2, mantissaRound_eq_down _ n hfl hfr]

/-- Evaluation of the rounding of a positive rational when the significand
rounds up. -/
theorem roundToBinary64_pos_up (q : ℚ) (e n : ℤ)
    (hq : 0 < q) (h1 : (2 : ℚ) ^ e ≤ q) (h2 : q < (2 : ℚ) ^ (e + 1))
    (hfl : ⌊q * (2 : ℚ) ^ ((52 : ℤ) - e)⌋ = n)
    (hfr : 1 / 2 < q * (2 : ℚ) ^ ((52 : ℤ) - e) - n) :
    roundToBinary64 q = ((n + 1 : ℤ) : ℚ) * (2 : ℚ) ^ (e - 52) := by
  rw [roundToBinary64_of_pos q hq]
  unfold roundPos
  rw [int_log2_eval hq h1 h2, mantissaRound_eq_up _ n hfl hfr]

/-- The double nearest the literal `0.05` is `3602879701896397 / 2 ^ 56`,
strictly above `1 / 20`. -/
theorem rnd_tol : roundToBinary64 (0.05 : ℚ) = 3602879701896397 / 72057594037927936 := by
  rw [roundToBinary64_pos_up (0.05 : ℚ) (-5) 7205759403792793 (by norm_num) (by norm_num)
    (by norm_num) (by rw [Int.floor_eq_iff]; constructor <;> norm_num) (by norm_num)]
  norm_num

/-- The double nearest `16 / 9`, strictly below it. -/
theorem rnd_c169 : roundToBinary64 ((16 : ℚ) / 9) = 8006399337547548 / 4503599627370496 := by
  rw [roundToBinary64_pos_down ((16 : ℚ) / 9) 0 8006399337547548 (by norm_num) (by norm_num)
    (by norm_num) (by rw [Int.floor_eq_iff]; constructor <;> norm_num) (by norm_num)]
  norm_num

/-- `9 / 16` is an exact binary64 value. -/
theorem rnd_c916 : roundToBinary64 ((9 : ℚ) / 16) = (9 : ℚ) / 16 :=
  roundToBinary64_eq_self ((9 : ℚ) / 16) (-1) 5066549580791808
    (by rw [abs_of_pos] <;> norm_num) (by rw [abs_of_pos] <;> norm_num)
    (by rw [abs_of_pos] <;> norm_num)

/-- The double nearest `329 / 180`. -/
theorem rnd_r329 : roundToBinary64 ((329 : ℚ) / 180) = 8231579318916073 / 4503599627370496 := by
  rw [roundToBinary64_pos_down ((329 : ℚ) / 180) 0 8231579318916073 (by norm_num) (by norm_num)
    (by norm_num) (by rw [Int.floor_eq_iff]; constructor <;> norm_num) (by norm_num)]
  norm_num

/-- Zeta-reduced form of the binary64 classifier, for rewriting. -/
theorem classify_fp_def (w h : ℚ) :
    getVideoOrientationFromDimensionsFP w h =
      if |fsub (fdiv w h) (fdiv 16 9)| ≤ roundToBinary64 (0.05 : ℚ) then .landscape
      else if |fsub (fdiv w h) (fdiv 9 16)| ≤ roundToBinary64 (0.05 : ℚ) then .portrait
      else .other := rfl

/-- The classifier's double constant `16 / 9`. -/
theorem fdiv_16_9 : fdiv 16 9 = 8006399337547548 / 4503599627370496 := rnd_c169

/-- The classifier's double constant `9 / 16`. -/
theorem fdiv_9_16 : fdiv 9 16 = (9 : ℚ) / 16 := rnd_c916

/-- Double subtraction of equal values is exactly zero. -/
theorem fsub_self_eq_zero (a : ℚ) : fsub a a = 0 := by
  unfold fsub
  rw [sub_self, roundToBinary64_zero]

/-- 1920×1080 classifies as landscape in binary64 arithmetic. -/
theorem fp_1920_1080 : getVideoOrientationFromDimensionsFP 1920 1080 = .landscape := by
  have hr : fdiv 1920 1080 = 8006399337547548 / 4503599627370496 := by
    unfold fdiv
    rw [show (1920 : ℚ) / 1080 = (16 : ℚ) / 9 by norm_num]
    exact rnd_c169
  rw [classify_fp_def, hr, fdiv_16_9, fsub_self_eq_zero, rnd_tol, if_pos (by norm_num)]

/-- 1080×1920 classifies as portrait in binary64 arithmetic. -/
theorem fp_1080_1920 : getVideoOrientationFromDimensionsFP 1080 1920 = .portrait := by
  have hr : fdiv 1080 1920 = (9 : ℚ) / 16 := by
    unfold fdiv
    rw [show (1080 : ℚ) / 1920 = (9 : ℚ) / 16 by norm_num]
    exact rnd_c916
  have hd : fsub ((9 : ℚ) / 16) (8006399337547548 / 4503599627370496) =
      -(5473124547151644 / 4503599627370496) := by
    unfold fsub
    rw [show (9 : ℚ) / 16 - 8006399337547548 / 4503599627370496 =
      -(5473124547151644 / 4503599627370496) by norm_num]
    exact roundToBinary64_eq_self _ 0 5473124547151644
      (by rw [abs_of_neg] <;> norm_num) (by rw [abs_of_neg] <;> norm_num)
      (by rw [abs_of_neg] <;> norm_num)
  rw [classify_fp_def, hr, fdiv_16_9, fdiv_9_16, hd, fsub_self_eq_zero, rnd_tol,
    if_neg (by rw [abs_neg, abs_of_pos] <;> norm_num), if_pos (by norm_num)]

/-- 800×800 classifies as other in binary64 arithmetic. -/
theorem fp_800_800 : getVideoOrientationFromDimensionsFP 800 800 = .other := by
  have hr : fdiv 800 800 = 1 := by
    unfold fdiv
    rw [show (800 : ℚ) / 800 = (1 : ℚ) by norm_num]
    exact roundToBinary64_eq_self 1 0 4503599627370496
      (by rw [abs_of_pos] <;> norm_num) (by rw [abs_of_pos] <;> norm_num)
      (by rw [abs_of_pos] <;> norm_num)
  have hd1 : fsub 1 (8006399337547548 / 4503599627370496) =
      -(3502799710177052 / 4503599627370496) := by
    unfold fsub
    rw [show (1 : ℚ) - 8006399337547548 / 4503599627370496 =
      -(3502799710177052 / 4503599627370496) by norm_num]
    exact roundToBinary64_eq_self _ (-1) 7005599420354104
      (by rw [abs_of_neg] <;> norm_num) (by rw [abs_of_neg] <;> norm_num)
      (by rw [abs_of_neg] <;> norm_num)
  have hd2 : fsub 1 ((9 : ℚ) / 16) = (7 : ℚ) / 16 := by
    unfold fsub
    rw [show (1 : ℚ) - (9 : ℚ) / 16 = (7 : ℚ) / 16 by norm_num]
    exact roundToBinary64_eq_self _ (-2) 7881299347898368
      (by rw [abs_of_pos] <;> norm_num) (by rw [abs_of_pos] <;> norm_num)
      (by rw [abs_of_pos] <;> norm_num)
  rw [classify_fp_def, hr, fdiv_16_9, fdiv_9_16, hd1, hd2, rnd_tol,
    if_neg (by rw [abs_neg, abs_of_pos] <;> norm_num),
    if_neg (by rw [abs_of_pos] <;> norm_num)]

/-- 329×180 classifies as other in binary64 arithmetic: the computed
difference `|329/180 - 16/9|` is the exact double `225179981368525 / 2 ^ 52`,
which exceeds the double `0.05` by `3 / 2 ^ 56`. -/
theorem fp_329_180 : getVideoOrientationFromDimensionsFP 329 180 = .other := by
  have hr : fdiv 329 180 = 8231579318916073 / 4503599627370496 := rnd_r329
  have hd1 : fsub (8231579318916073 / 4503599627370496 : ℚ)
      (8006399337547548 / 4503599627370496) = 225179981368525 / 4503599627370496 := by
    unfold fsub
    rw [show (8231579318916073 / 4503599627370496 : ℚ) - 8006399337547548 / 4503599627370496 =
      225179981368525 / 4503599627370496 by norm_num]
    exact roundToBinary64_eq_self _ (-5) 7205759403792800
      (by rw [abs_of_pos] <;> norm_num) (by rw [abs_of_pos] <;> norm_num)
      (by rw [abs_of_pos] <;> norm_num)
  have hd2 : fsub (8231579318916073 / 4503599627370496 : ℚ) ((9 : ℚ) / 16) =
      5698304528520169 / 4503599627370496 := by
    unfold fsub
    rw [show (8231579318916073 / 4503599627370496 : ℚ) - (9 : ℚ) / 16 =
      5698304528520169 / 4503599627370496 by norm_num]
    exact roundToBinary64_eq_self _ 0 5698304528520169
      (by rw [abs_of_pos] <;> norm_num) (by rw [abs_of_pos] <;> norm_num)
      (by rw [abs_of_pos] <;> norm_num)
  rw [classify_fp_def, hr, fdiv_16_9, fdiv_9_16, hd1, hd2, rnd_tol,
    if_neg (by rw [abs_of_pos] <;> norm_num),
    if_neg (by rw [abs_of_pos] <;> norm_num)]

/-- C6, counterexample: at width 329, height 180 the exact ratio lies inside
the landscape band (`|329/180 - 16/9| = 1/20`), so the claim requires
landscape; but the classifier, modelled with the code's IEEE binary64
arithmetic, computes the difference as `225179981368525 / 2 ^ 52`, which
exceeds the double `0.05` by `3 / 2 ^ 56`, and returns other. -/
theorem classify_boundary_pair_counterexample :
    |(329 : ℚ) / 180 - 16 / 9| ≤ 0.05 ∧
    getVideoOrientationFromDimensionsFP 329 180 = .other ∧
    getVideoOrientationFromDimensionsFP 329 180 ≠ .landscape := by
  refine ⟨?_, fp_329_180, ?_⟩
  · rw [show (329 : ℚ) / 180 - 16 / 9 = 1 / 20 by norm_num]
    rw [abs_of_pos] <;> norm_num
  · rw [fp_329_180]
    simp

/-- C6, amended: with the band comparisons evaluated in IEEE binary64
arithmetic, as the code computes them, the classifier returns landscape
when the computed `|w/h - 16/9| <= 0.05`; otherwise portrait when the
computed `|w/h - 9/16| <= 0.05`; otherwise other — and 1920×1080 is
landscape, 1080×1920 portrait, 800×800 other. -/
theorem classify_fp_matches_band_tests (w h : ℕ) (hw : 0 < w) (hh : 0 < h) :
    ((|fsub (fdiv (w : ℚ) (h : ℚ)) (fdiv 16 9)| ≤ roundToBinary64 (0.05 : ℚ) →
        getVideoOrientationFromDimensionsFP w h = .landscape) ∧
     (¬ |fsub (fdiv (w : ℚ) (h : ℚ)) (fdiv 16 9)| ≤ roundToBinary64 (0.05 : ℚ) →
      |fsub (fdiv (w : ℚ) (h : ℚ)) (fdiv 9 16)| ≤ roundToBinary64 (0.05 : ℚ) →
        getVideoOrientationFromDimensionsFP w h = .portrait) ∧
     (¬ |fsub (fdiv (w : ℚ) (h : ℚ)) (fdiv 16 9)| ≤ roundToBinary64 (0.05 : ℚ) →
      ¬ |fsub (fdiv (w : ℚ) (h : ℚ)) (fdiv 9 16)| ≤ roundToBinary64 (0.05 : ℚ) →
        getVideoOrientationFromDimensionsFP w h = .other)) ∧
    getVideoOrientationFromDimensionsFP 1920 1080 = .landscape ∧
    getVideoOrientationFromDimensionsFP 1080 1920 = .portrait ∧
    getVideoOrientationFromDimensionsFP 800 800 = .other := by
  refine ⟨⟨?_, ?_, ?_⟩, fp_1920_1080, fp_1080_1920, fp_800_800⟩
  · intro h1
    rw [classify_fp_def, if_pos h1]
  · intro h1 h2
    rw [classify_fp_def, if_neg h1, if_pos h2]
  · intro h1 h2
    rw [classify_fp_def, if_neg h1, if_neg h2]

/-- C6, witness: the binary64 band characterization applied at the concrete
dimensions 1920×1080. -/
theorem classify_fp_matches_band_tests_witness :
    getVideoOrientationFromDimensionsFP 1920 1080 = .landscape :=
  (classify_fp_matches_band_tests 1920 1080 (by norm_num) (by norm_num)).2.1

/-- C7: whenever the probe process exits non-zero, `getVideoOrientation`
throws an error carrying exactly the fully captured stderr text and never
returns an orientation computed from the stream geometry. -/
theorem probe_nonzero_exit_fails_with_stderr (proc : ProbeProc)
    (h : proc.exitCode ≠ 0) :
    getVideoOrientation proc = .error proc.stderrText ∧
    ∀ o, getVideoOrientation proc ≠ .ok o := by
  unfold getVideoOrientation
  rw [if_pos h]
  exact ⟨rfl, fun o hc => Except.noConfusion hc⟩

/-- C7, witness: the theorem applied to the concrete failing probe. -/
theorem probe_nonzero_exit_fails_with_stderr_witness :
    getVideoOrientation probeFailT =
      .error "ffprobe: No such file or directory" :=
  (probe_nonzero_exit_fails_with_stderr probeFailT (by decide)).1

/-- C8: the classifier is invariant under exact aspect-preserving scaling by
any positive factor, since the scaled ratio is the same rational number. -/
theorem classify_scale_invariant (w h k : ℚ) (hw : 0 < w) (hh : 0 < h)
    (hk : 0 < k) :
    getVideoOrientationFromDimensions w h
      = getVideoOrientationFromDimensions (k * w) (k * h) := by
  rw [classify_def, classify_def, mul_div_mul_left w h (ne_of_gt hk)]

/-- C8, witness: scale invariance applied at 16×9 with factor 120. -/
theorem classify_scale_invariant_witness :
    getVideoOrientationFromDimensions 16 9
      = getVideoOrientationFromDimensions (120 * 16) (120 * 9) :=
  classify_scale_invariant 16 9 120 (by norm_num) (by norm_num) (by norm_num)

/-- C9: a successful upload persists exactly one record, the one returned in
the response, and that record agrees with the prior stored record on every
field other than `videoURL` (identifier, owner, title, description,
thumbnail URL are all unchanged). -/
theorem upload_success_preserves_other_fields (cfg : ApiConfig)
    (env : UploadEnv) (req : VideoUploadRequest) (vid : String)
    (r₀ r : VideoRecord) (hvid : req.videoId = some vid)
    (hdb : env.db vid = some r₀)
    (h : (handlerUploadVideo cfg env req).result = .ok r) :
    (handlerUploadVideo cfg env req).dbUpdates = [r] ∧
    r.id = r₀.id ∧ r.userID = r₀.userID ∧ r.title = r₀.title ∧
    r.description = r₀.description ∧ r.thumbnailURL = r₀.thumbnailURL := by
  revert hvid hdb h
  unfold handlerUploadVideo
  repeat' split
  all_goals intro hvid hdb h
  all_goals simp_all
  all_goals (subst r; simp)

/-- C9, witness: the frame condition applied to the concrete success run. -/
theorem upload_success_preserves_other_fields_witness :
    (handlerUploadVideo cfgT envOkT reqT).dbUpdates = [vT] ∧
    vT.id = recT.id ∧ vT.userID = recT.userID ∧ vT.title = recT.title ∧
    vT.description = recT.description ∧ vT.thumbnailURL = recT.thumbnailURL :=
  upload_success_preserves_other_fields cfgT envOkT reqT "vid-1" recT vT
    rfl rfl (by rw [uploadOkT_eval])

/-- C10: a thumbnail upload with a valid credential, a well-formed file, and
a `videoId` for which no record exists fails with `UserForbiddenError`, not
`NotFoundError`: the guard `videoMetaData?.userID !== userID` compares the
authenticated identity against the owner field of an absent record. -/
theorem thumbnail_missing_record_forbidden (cfg : ApiConfig) (env : ThumbEnv)
    (req : ThumbUploadRequest) (vid : String) (t : UploadFile)
    (hvid : req.videoId = some vid) (ht : req.thumbnail = some t)
    (hmime : allowedMimeTypes.contains t.mimeType = true)
    (hsize : t.size ≤ THUMB_MAX_UPLOAD_SIZE)
    (hdb : env.db vid = none) :
    (handlerUploadThumbnail cfg env req).result =
      .error (.userForbidden "Video does not belong to this user") := by
  revert hvid ht hmime hsize hdb
  unfold handlerUploadThumbnail
  repeat' split
  all_goals intro hvid ht hmime hsize hdb
  all_goals simp_all
  all_goals omega

/-- C10, witness: the theorem applied to a concrete request for an absent
record with an empty store. -/
theorem thumbnail_missing_record_forbidden_witness :
    (handlerUploadThumbnail cfgT thumbEnvEmptyT thumbReqT).result =
      .error (.userForbidden "Video does not belong to this user") :=
  thumbnail_missing_record_forbidden cfgT thumbEnvEmptyT thumbReqT
    "vid-404" { size := 10, mimeType := "image/png" }
    rfl rfl (by decide) (by decide) rfl
